import Mathlib

/-!
Shallow embedding of `src/servers/app-servers/python/gunicorn.conf.py`
(the Health-InfraOps Gunicorn configuration) and proofs about it.

The configuration module is a flat namespace of settings plus eight
callback functions.  We embed the settings as a `Config` structure whose
single non-literal field (`workers`) is parameterised by the host CPU
count, and each callback as a pure function returning the list of log
records it writes (Python's implicit `return None` is modelled as `Unit`
where the return value matters).
-/

namespace HealthInfraOps
namespace Gunicorn

/-- Severity of a log write performed by a hook (`server.log.info` /
`worker.log.debug` in the source). -/
inductive LogLevel where
  | info
  | debug
  deriving DecidableEq

/-- One log record emitted by a hook: a level and the message text. -/
structure LogRecord where
  level : LogLevel
  msg : String
  deriving DecidableEq

/-- The flat configuration namespace of `gunicorn.conf.py`, one field per
module-level assignment. -/
structure Config where
  bind : String
  backlog : Nat
  workers : Nat
  worker_class : String
  worker_connections : Nat
  max_requests : Nat
  max_requests_jitter : Nat
  timeout : Nat
  keepalive : Nat
  limit_request_line : Nat
  limit_request_fields : Nat
  limit_request_field_size : Nat
  proc_name : String
  accesslog : String
  errorlog : String
  loglevel : String
  access_log_format : String
  daemon : Bool
  pidfile : String
  umask : Nat
  user : Option String
  group : Option String
  tmp_upload_dir : Option String
  preload_app : Bool
  worker_tmp_dir : String
  raw_env : List String

/-- The configuration as loaded, parameterised by the value
`multiprocessing.cpu_count()` returns on the host.  Every field holds the
literal written in the file; `workers` is computed from the CPU count. -/
def config (cpuCount : Nat) : Config where
  bind := "0.0.0.0:8000"
  backlog := 2048
  workers := cpuCount * 2 + 1
  worker_class := "gevent"
  worker_connections := 1000
  max_requests := 1000
  max_requests_jitter := 50
  timeout := 30
  keepalive := 2
  limit_request_line := 4096
  limit_request_fields := 100
  limit_request_field_size := 8190
  proc_name := "infokes-api"
  accesslog := "/var/log/gunicorn/access.log"
  errorlog := "/var/log/gunicorn/error.log"
  loglevel := "info"
  access_log_format := "%(h)s %(l)s %(u)s %(t)s \"%(r)s\" %(s)s %(b)s \"%(f)s\" \"%(a)s\""
  daemon := false
  pidfile := "/var/run/gunicorn/gunicorn.pid"
  umask := 0
  user := none
  group := none
  tmp_upload_dir := none
  preload_app := true
  worker_tmp_dir := "/dev/shm"
  raw_env := ["PYTHONPATH=/opt/infokes/app", "INFOKES_ENV=production"]

/-- Worker descriptor passed to the hooks.  The source reads only
`worker.pid`; `age` stands for the descriptor's remaining state, so that
independence from unread fields is expressible. -/
structure Worker where
  pid : Nat
  age : Nat
  deriving DecidableEq

/-- Request descriptor passed to the request hooks.  The source reads only
`req.method` and `req.path`; `headers` stands for the rest of the request. -/
structure Request where
  method : String
  path : String
  headers : List (String × String)
  deriving DecidableEq

/-- Response descriptor passed to `post_request`.  The source reads only
`resp.status`; `headers` stands for the rest of the response. -/
structure Response where
  status : String
  headers : List (String × String)
  deriving DecidableEq

/-- The WSGI environ dictionary passed to `post_request` (never read). -/
abbrev Environ := List (String × String)

/-- `when_ready(server)`: one informational log line.  The `server`
argument is used in the source only as the log channel, so it may have any
type here. -/
def when_ready {α : Type} (server : α) : List LogRecord :=
  [⟨LogLevel.info, "Infokes API server is ready and accepting connections"⟩]

/-- `pre_fork(server, worker)`: body is `pass`, no log write. -/
def pre_fork {α : Type} (server : α) (worker : Worker) : List LogRecord :=
  []

/-- `post_fork(server, worker)`: one informational log line built from the
f-string `f"Worker {worker.pid} spawned"`. -/
def post_fork {α : Type} (server : α) (worker : Worker) : List LogRecord :=
  [⟨LogLevel.info, "Worker " ++ toString worker.pid ++ " spawned"⟩]

/-- `pre_exec(server)`: one informational log line. -/
def pre_exec {α : Type} (server : α) : List LogRecord :=
  [⟨LogLevel.info, "Forked child, re-executing"⟩]

/-- `worker_int(worker)`: one informational log line. -/
def worker_int (worker : Worker) : List LogRecord :=
  [⟨LogLevel.info, "Worker received INT or QUIT signal"⟩]

/-- `worker_abort(worker)`: one informational log line. -/
def worker_abort (worker : Worker) : List LogRecord :=
  [⟨LogLevel.info, "Worker received SIGABRT signal"⟩]

/-- `pre_request(worker, req)`: one debug log line built from the f-string
`f"Request: {req.method} {req.path}"`. -/
def pre_request (worker : Worker) (req : Request) : List LogRecord :=
  [⟨LogLevel.debug, "Request: " ++ req.method ++ " " ++ req.path⟩]

/-- `post_request(worker, req, environ, resp)`: one debug log line built
from the f-string `f"Response: {resp.status}"`. -/
def post_request (worker : Worker) (req : Request) (environ : Environ)
    (resp : Response) : List LogRecord :=
  [⟨LogLevel.debug, "Response: " ++ resp.status⟩]

/-- Enumeration of the callback functions defined at the end of the file,
in source order. -/
inductive Hook where
  | when_ready
  | pre_fork
  | post_fork
  | pre_exec
  | worker_int
  | worker_abort
  | pre_request
  | post_request
  deriving DecidableEq

/-- All the callback functions the configuration file defines, in source
order. -/
def Hook.all : List Hook :=
  [.when_ready, .pre_fork, .post_fork, .pre_exec,
   .worker_int, .worker_abort, .pre_request, .post_request]

/-- One invocation context: everything the external runtime could pass to
a hook. -/
structure Ctx (α : Type) where
  server : α
  worker : Worker
  req : Request
  environ : Environ
  resp : Response

/-- Uniform semantics of one hook invocation: the log records it writes
paired with its Python return value (always `None`, modelled as `Unit`). -/
def runHook {α : Type} : Hook → Ctx α → List LogRecord × Unit
  | .when_ready, c => (when_ready c.server, ())
  | .pre_fork, c => (pre_fork c.server c.worker, ())
  | .post_fork, c => (post_fork c.server c.worker, ())
  | .pre_exec, c => (pre_exec c.server, ())
  | .worker_int, c => (worker_int c.worker, ())
  | .worker_abort, c => (worker_abort c.worker, ())
  | .pre_request, c => (pre_request c.worker c.req, ())
  | .post_request, c => (post_request c.worker c.req c.environ c.resp, ())

/-- `s` contains `sub` as a contiguous substring. -/
def ContainsSubstr (s sub : String) : Prop :=
  ∃ pre post : String, s = pre ++ sub ++ post

/-- Claim C1: for every declared configuration field the loaded
configuration exposes exactly the literal value written in the file; in
particular bind = "0.0.0.0:8000", backlog = 2048,
worker_connections = 1000, max_requests = 1000, max_requests_jitter = 50,
timeout = 30, keepalive = 2, limit_request_line = 4096,
limit_request_fields = 100 and limit_request_field_size = 8190, on every
host CPU count. -/
theorem C1_config_literal_fields (cpuCount : Nat) :
    (config cpuCount).bind = "0.0.0.0:8000" ∧
    (config cpuCount).backlog = 2048 ∧
    (config cpuCount).worker_connections = 1000 ∧
    (config cpuCount).max_requests = 1000 ∧
    (config cpuCount).max_requests_jitter = 50 ∧
    (config cpuCount).timeout = 30 ∧
    (config cpuCount).keepalive = 2 ∧
    (config cpuCount).limit_request_line = 4096 ∧
    (config cpuCount).limit_request_fields = 100 ∧
    (config cpuCount).limit_request_field_size = 8190 := by
  exact ⟨rfl, rfl, rfl, rfl, rfl, rfl, rfl, rfl, rfl, rfl⟩

/-- Closed instance of C1 at CPU count 4. -/
theorem C1_config_literal_fields_witness :
    (config 4).bind = "0.0.0.0:8000" ∧
    (config 4).backlog = 2048 ∧
    (config 4).worker_connections = 1000 ∧
    (config 4).max_requests = 1000 ∧
    (config 4).max_requests_jitter = 50 ∧
    (config 4).timeout = 30 ∧
    (config 4).keepalive = 2 ∧
    (config 4).limit_request_line = 4096 ∧
    (config 4).limit_request_fields = 100 ∧
    (config 4).limit_request_field_size = 8190 :=
  C1_config_literal_fields 4

/-- Claim C2: at load time the workers field equals twice the detected CPU
parallelism of the host plus one, for every host CPU count. -/
theorem C2_workers_formula (cpuCount : Nat) :
    (config cpuCount).workers = 2 * cpuCount + 1 := by
  show cpuCount * 2 + 1 = 2 * cpuCount + 1
  rw [Nat.mul_comm]

/-- Closed instance of C2 at CPU count 4: 2 * 4 + 1 = 9 workers. -/
theorem C2_workers_formula_witness : (config 4).workers = 2 * 4 + 1 :=
  C2_workers_formula 4

/-- Claim C3: raw_env contains exactly the two entries
"PYTHONPATH=/opt/infokes/app" and "INFOKES_ENV=production" in that order,
hence has length two and no duplicate entries. -/
theorem C3_raw_env_exact (cpuCount : Nat) :
    (config cpuCount).raw_env =
      ["PYTHONPATH=/opt/infokes/app", "INFOKES_ENV=production"] ∧
    (config cpuCount).raw_env.length = 2 ∧
    (config cpuCount).raw_env.Nodup := by
  refine ⟨rfl, rfl, ?_⟩
  show List.Nodup ["PYTHONPATH=/opt/infokes/app", "INFOKES_ENV=production"]
  decide

/-- Closed instance of C3 at CPU count 4. -/
theorem C3_raw_env_exact_witness :
    (config 4).raw_env =
      ["PYTHONPATH=/opt/infokes/app", "INFOKES_ENV=production"] ∧
    (config 4).raw_env.length = 2 ∧
    (config 4).raw_env.Nodup :=
  C3_raw_env_exact 4

/-- Claim C4: invoking post_fork with any server and any worker whose
process id is 4321 produces exactly one informational log record, and that
record contains the substring "4321". -/
theorem C4_post_fork_logs_pid {α : Type} (server : α) (worker : Worker)
    (h : worker.pid = 4321) :
    ∃ msg : String,
      post_fork server worker = [⟨LogLevel.info, msg⟩] ∧
      ContainsSubstr msg "4321" := by
  refine ⟨"Worker " ++ toString worker.pid ++ " spawned", rfl,
    "Worker ", " spawned", ?_⟩
  rw [h]
  rfl

/-- Closed instance of C4: a worker with pid 4321 and a unit server. -/
theorem C4_post_fork_logs_pid_witness :
    ∃ msg : String,
      post_fork () (Worker.mk 4321 0) = [⟨LogLevel.info, msg⟩] ∧
      ContainsSubstr msg "4321" :=
  C4_post_fork_logs_pid () (Worker.mk 4321 0) rfl

/-- Claim C5: invoking pre_request with any worker and any request whose
method is "GET" and path is "/health" produces exactly one debug log
record containing both "GET" and "/health". -/
theorem C5_pre_request_logs_method_path (worker : Worker) (req : Request)
    (hm : req.method = "GET") (hp : req.path = "/health") :
    ∃ msg : String,
      pre_request worker req = [⟨LogLevel.debug, msg⟩] ∧
      ContainsSubstr msg "GET" ∧ ContainsSubstr msg "/health" := by
  refine ⟨"Request: " ++ req.method ++ " " ++ req.path, rfl, ?_, ?_⟩
  · refine ⟨"Request: ", " " ++ req.path, ?_⟩
    rw [hm]
    exact String.append_assoc _ _ _
  · refine ⟨"Request: " ++ req.method ++ " ", "", ?_⟩
    rw [hm, hp]
    rfl

/-- Closed instance of C5: a GET /health request. -/
theorem C5_pre_request_logs_method_path_witness :
    ∃ msg : String,
      pre_request (Worker.mk 1 0) (Request.mk "GET" "/health" []) =
        [⟨LogLevel.debug, msg⟩] ∧
      ContainsSubstr msg "GET" ∧ ContainsSubstr msg "/health" :=
  C5_pre_request_logs_method_path (Worker.mk 1 0)
    (Request.mk "GET" "/health" []) rfl rfl

/-- Claim C6: invoking post_request with any worker, request, environ and
a response whose status is "200" produces exactly one debug log record
containing the substring "200". -/
theorem C6_post_request_logs_status (worker : Worker) (req : Request)
    (environ : Environ) (resp : Response) (h : resp.status = "200") :
    ∃ msg : String,
      post_request worker req environ resp = [⟨LogLevel.debug, msg⟩] ∧
      ContainsSubstr msg "200" := by
  refine ⟨"Response: " ++ resp.status, rfl, "Response: ", "", ?_⟩
  rw [h]
  rfl

/-- Closed instance of C6: a response with status "200". -/
theorem C6_post_request_logs_status_witness :
    ∃ msg : String,
      post_request (Worker.mk 1 0) (Request.mk "GET" "/" []) []
          (Response.mk "200" []) = [⟨LogLevel.debug, msg⟩] ∧
      ContainsSubstr msg "200" :=
  C6_post_request_logs_status (Worker.mk 1 0) (Request.mk "GET" "/" []) []
    (Response.mk "200" []) rfl

/-- Claim C7 is false as stated: the file defines eight callback stubs,
not seven.  This closed theorem refutes the count of seven. -/
theorem C7_seven_hooks_counterexample : Hook.all.length ≠ 7 := by
  decide

/-- Claim C7 amended: the artifact defines exactly eight stateless
lifecycle callback stubs, and each of them performs at most one log write
per invocation, whatever the invocation context. -/
theorem C7_eight_hooks_at_most_one_log :
    Hook.all.length = 8 ∧
    (∀ h : Hook, h ∈ Hook.all) ∧
    (∀ (α : Type) (h : Hook) (c : Ctx α), (runHook h c).1.length ≤ 1) := by
  refine ⟨rfl, ?_, ?_⟩
  · intro h
    cases h <;> simp [Hook.all]
  · intro α h c
    cases h <;>
      simp [runHook, when_ready, pre_fork, post_fork, pre_exec,
        worker_int, worker_abort, pre_request, post_request]

/-- Closed instance of the amended C7: post_fork in a concrete context
writes at most one log record. -/
theorem C7_eight_hooks_at_most_one_log_witness :
    (runHook Hook.post_fork
      (Ctx.mk () (Worker.mk 1 0) (Request.mk "GET" "/" []) []
        (Response.mk "200" []))).1.length ≤ 1 :=
  C7_eight_hooks_at_most_one_log.2.2 Unit Hook.post_fork
    (Ctx.mk () (Worker.mk 1 0) (Request.mk "GET" "/" []) []
      (Response.mk "200" []))

/-- Claim C8: every hook is total: on every invocation context it yields a
result, the shape and levels of its log output do not depend on the input
(no branching, no error path), and its return value is the unit value,
never consumed by the caller. -/
theorem C8_hooks_total_branchless (α : Type) (h : Hook) (c c' : Ctx α) :
    ((runHook h c).1.map LogRecord.level =
      (runHook h c').1.map LogRecord.level) ∧
    (runHook h c).2 = () := by
  cases h <;>
    simp [runHook, when_ready, pre_fork, post_fork, pre_exec,
      worker_int, worker_abort, pre_request, post_request]

/-- Closed instance of C8: pre_request on two different contexts yields
the same log levels and the unit return value. -/
theorem C8_hooks_total_branchless_witness :
    ((runHook Hook.pre_request
        (Ctx.mk () (Worker.mk 1 0) (Request.mk "GET" "/" []) []
          (Response.mk "200" []))).1.map LogRecord.level =
      (runHook Hook.pre_request
        (Ctx.mk () (Worker.mk 2 5) (Request.mk "POST" "/x" []) []
          (Response.mk "500" []))).1.map LogRecord.level) ∧
    (runHook Hook.pre_request
      (Ctx.mk () (Worker.mk 1 0) (Request.mk "GET" "/" []) []
        (Response.mk "200" []))).2 = () :=
  C8_hooks_total_branchless Unit Hook.pre_request
    (Ctx.mk () (Worker.mk 1 0) (Request.mk "GET" "/" []) []
      (Response.mk "200" []))
    (Ctx.mk () (Worker.mk 2 5) (Request.mk "POST" "/x" []) []
      (Response.mk "500" []))

/-- Claim C9: invoking pre_fork with any server and any worker is a
no-op: it produces no log record. -/
theorem C9_pre_fork_noop {α : Type} (server : α) (worker : Worker) :
    pre_fork server worker = [] :=
  rfl

/-- Closed instance of C9 with a unit server and a concrete worker. -/
theorem C9_pre_fork_noop_witness : pre_fork () (Worker.mk 1 0) = [] :=
  C9_pre_fork_noop () (Worker.mk 1 0)

/-- Claim C10: the logging hooks are deterministic and depend only on the
fields they log: pre_request yields identical records on requests with
equal method and path regardless of any other request or worker field,
and post_request yields identical records on responses with equal status
regardless of the request, environ or worker. -/
theorem C10_hooks_depend_only_on_logged_fields :
    (∀ (w w' : Worker) (r r' : Request),
      r.method = r'.method → r.path = r'.path →
        pre_request w r = pre_request w' r') ∧
    (∀ (w w' : Worker) (r r' : Request) (e e' : Environ)
        (p p' : Response),
      p.status = p'.status →
        post_request w r e p = post_request w' r' e' p') := by
  constructor
  · intro w w' r r' hm hp
    simp [pre_request, hm, hp]
  · intro w w' r r' e e' p p' hs
    simp [post_request, hs]

/-- Closed instance of C10: concrete invocations differing only in fields
the hooks do not log produce identical log records. -/
theorem C10_hooks_depend_only_on_logged_fields_witness :
    pre_request (Worker.mk 1 2) (Request.mk "GET" "/health" [("X", "1")]) =
      pre_request (Worker.mk 3 4) (Request.mk "GET" "/health" []) ∧
    post_request (Worker.mk 1 2) (Request.mk "GET" "/health" [])
        [("k", "v")] (Response.mk "200" [("a", "b")]) =
      post_request (Worker.mk 5 6) (Request.mk "POST" "/x" []) []
        (Response.mk "200" []) :=
  ⟨C10_hooks_depend_only_on_logged_fields.1 (Worker.mk 1 2) (Worker.mk 3 4)
      (Request.mk "GET" "/health" [("X", "1")])
      (Request.mk "GET" "/health" []) rfl rfl,
    C10_hooks_depend_only_on_logged_fields.2 (Worker.mk 1 2) (Worker.mk 5 6)
      (Request.mk "GET" "/health" []) (Request.mk "POST" "/x" [])
      [("k", "v")] [] (Response.mk "200" [("a", "b")])
      (Response.mk "200" []) rfl⟩

end Gunicorn
end HealthInfraOps
